import Mathlib

/-!
Shallow embedding of the core of the `plant-freelance-back` repository
(`src/services.py`, `src/models.py`): the Excel tabular extractor
(`ExcelProcessor.process_excel`), the image-metadata collector
(`ImageProcessor.process_images`) and the entity reconciler
(`DataMapper.normalize_filename` / `find_matching_image` / `map_data`),
together with the pydantic data model (`Plant`, `PlantDatabaseMetadata`,
`PlantDatabase`).

Modelling conventions:
* A spreadsheet cell is `Cell`: `blank` stands for a missing value
  (pandas `NaN`, the only value for which `pd.isna` is true here),
  `str` for a text cell and `num` for a numeric cell (Python floats are
  modelled as rationals).
* Python strings are Lean `String`s; the Python string primitives that the
  code uses (`str.strip`, `str.lower`, `in`, `float(...)`, `pathlib.Path`
  stem/suffix, the two `re.sub` patterns) are re-implemented over `List Char`
  below, restricted to ASCII case mapping where Python would apply full
  Unicode case folding (no claim exercises non-ASCII case mapping).
* Filesystem and PIL effects in `process_images` are modelled by explicit
  parameters: whether the directory exists, the directory listing, and for
  each entry whether it is a regular file, whether `PIL.Image.open`
  succeeds, and the metadata PIL would report.
* `uuid.uuid4()` (the `id` field of `Plant`) and `datetime.now()`
  (`processingDate`) are nondeterministic; the `id` field is omitted from
  the model and the timestamp is passed in as an explicit `now` argument.
  No claim mentions either value.
-/

/-- A spreadsheet cell as read by `pd.read_excel(..., header=None)`:
`blank` is a pandas `NaN`, otherwise a text or numeric value. -/
inductive Cell where
  | blank
  | str (s : String)
  | num (q : Rat)
deriving DecidableEq, Repr

/-- `pd.isna` on a cell: true exactly for the missing value. -/
def pdIsna : Cell → Bool
  | Cell.blank => true
  | _ => false

/-- Python truthiness of a cell value (`not ref_photo`): the empty string,
the number `0` and the missing value are falsy. -/
def cellFalsy : Cell → Bool
  | Cell.blank => true
  | Cell.str s => s == ""
  | Cell.num q => q == 0

/-- Python `str(...)` applied to a cell value.  `str(nan) = "nan"`;
numeric formatting is simplified to `Rat`'s `toString` (Python renders
floats with a trailing `.0`; no claim applies `str` to a numeric cell). -/
def pyStr : Cell → String
  | Cell.blank => "nan"
  | Cell.str s => s
  | Cell.num q => toString q

/-- ASCII whitespace recognised by Python's `str.strip()`. -/
def pyIsSpace (c : Char) : Bool :=
  c == ' ' || c == '\t' || c == '\n' || c == '\r' || c == '\x0b' || c == '\x0c'

/-- Python `str.strip()` over the character list. -/
def pyStripL (l : List Char) : List Char :=
  ((l.dropWhile pyIsSpace).reverse.dropWhile pyIsSpace).reverse

/-- Python `str.strip()`. -/
def pyStrip (s : String) : String := ⟨pyStripL s.data⟩

/-- Python `str.lower()` (ASCII case mapping). -/
def pyLower (s : String) : String := ⟨s.data.map Char.toLower⟩

/-- Python `sub in hay` on strings: contiguous-substring test. -/
def pyIn (sub hay : String) : Bool := decide (sub.data <:+: hay.data)

/-- Decimal digits as a natural number (used by the `float(...)` model). -/
def digitsVal (l : List Char) : Nat :=
  l.foldl (fun a c => a * 10 + (c.toNat - 48)) 0

/-- A non-empty all-digit chunk, as required in each numeric part of a
Python float literal. -/
def isDigits (l : List Char) : Bool := !l.isEmpty && l.all Char.isDigit

/-- Mantissa of a Python float literal: `digits`, `digits.digits`,
`.digits` or `digits.` (at least one digit overall). -/
def parseMantissa (l : List Char) : Option Rat :=
  match l.findIdx? (· == '.') with
  | none => if isDigits l then some (digitsVal l) else none
  | some i =>
    let intPart := l.take i
    let fracPart := l.drop (i + 1)
    if fracPart.any (· == '.') then none
    else if (intPart.all Char.isDigit) && (fracPart.all Char.isDigit)
        && (!intPart.isEmpty || !fracPart.isEmpty) then
      some ((digitsVal intPart : Rat) +
        (digitsVal fracPart : Rat) / ((10 : Rat) ^ fracPart.length))
    else none

/-- Optional sign in front of a Python float literal. -/
def parseSigned (l : List Char) (body : List Char → Option Rat) : Option Rat :=
  match l with
  | '-' :: rest => (body rest).map (fun q => -q)
  | '+' :: rest => body rest
  | _ => body l

/-- Python `float(s)` on a string: strips whitespace, then an optional
sign, a decimal mantissa and an optional exponent.  The special literals
`inf`/`nan` and underscore digit grouping are not modelled (no claim uses
them); any other unparsable string yields `none` (Python: `ValueError`). -/
def pyFloatOfString (s : String) : Option Rat :=
  let l := pyStripL s.data
  parseSigned l (fun body =>
    match body.findIdx? (fun c => c == 'e' || c == 'E') with
    | none => parseMantissa body
    | some i =>
      let mant := body.take i
      let expPart := body.drop (i + 1)
      match parseMantissa mant with
      | none => none
      | some m =>
        match expPart with
        | '-' :: ds => if isDigits ds then some (m / ((10 : Rat) ^ digitsVal ds)) else none
        | '+' :: ds => if isDigits ds then some (m * ((10 : Rat) ^ digitsVal ds)) else none
        | ds => if isDigits ds then some (m * ((10 : Rat) ^ digitsVal ds)) else none)

namespace DataMapper

/-- `DataMapper._safe_float_convert`: `None`, `NaN` and the empty string
yield `None`; otherwise `float(value)`, with a parse failure also yielding
`None`.  The argument is `Option Cell` because `_get_column_value` can
return the Python default `None`. -/
def _safe_float_convert : Option Cell → Option Rat
  | none => none
  | some Cell.blank => none
  | some (Cell.str s) => if s == "" then none else pyFloatOfString s
  | some (Cell.num q) => some q

end DataMapper

/-- The final path component (`pathlib` splits on `/`; the code only ever
passes bare filenames and spreadsheet cell text). -/
def lastComponent (l : List Char) : List Char :=
  (l.reverse.takeWhile (· != '/')).reverse

/-- Index of the last `.` in a name, if any. -/
def lastDotIdx (l : List Char) : Option Nat :=
  match l.reverse.findIdx? (· == '.') with
  | none => none
  | some j => some (l.length - 1 - j)

/-- `pathlib.PurePath(name).stem`: the final component without its
extension; CPython keeps the name whole unless the last dot is at an index
`i` with `0 < i < len(name) - 1`. -/
def pathStem (l : List Char) : List Char :=
  let name := lastComponent l
  match lastDotIdx name with
  | none => name
  | some i => if 0 < i && i < name.length - 1 then name.take i else name

/-- `pathlib.PurePath(name).suffix`: the extension including the dot,
or empty under the same index condition as `pathStem`. -/
def pathSuffix (l : List Char) : List Char :=
  let name := lastComponent l
  match lastDotIdx name with
  | none => []
  | some i => if 0 < i && i < name.length - 1 then name.drop i else []

/-- The character class kept by `re.sub(r'[^\w\-_.]', '', ...)`:
word characters (ASCII letters, digits, underscore) plus `-` and `.`. -/
def keepCh (c : Char) : Bool :=
  c.isAlphanum || c == '_' || c == '-' || c == '.'

namespace DataMapper

/-- `DataMapper.normalize_filename`: strip the extension (`Path(...).stem`),
delete every character outside the letter/digit/hyphen/underscore/period
class, and lower-case the result. -/
def normalize_filename (filename : String) : String :=
  ⟨((pathStem filename.data).filter keepCh).map Char.toLower⟩

end DataMapper

/-- Drop a single leading `_` (the `_?` part of the two core-stripping
regular expressions, consumed together with the matched alternative). -/
def dropUnderscoreHead : List Char → List Char
  | '_' :: t => t
  | l => l

/-- `re.sub(r'^(img|image|photo|pic)_?', '', s)`.  The four alternatives
are mutually exclusive as leading segments (`img`/`image` differ at their
third character), so the regex removes whichever of them starts the
string; after the matched alternative one optional `_` is consumed. -/
def stripCoreHead (s : String) : String :=
  let l := s.data
  if l.take 3 == ['i', 'm', 'g'] then ⟨dropUnderscoreHead (l.drop 3)⟩
  else if l.take 5 == ['i', 'm', 'a', 'g', 'e'] then ⟨dropUnderscoreHead (l.drop 5)⟩
  else if l.take 5 == ['p', 'h', 'o', 't', 'o'] then ⟨dropUnderscoreHead (l.drop 5)⟩
  else if l.take 3 == ['p', 'i', 'c'] then ⟨dropUnderscoreHead (l.drop 3)⟩
  else s

/-- Drop the last `n` characters of a string. -/
def dropLastN (s : String) (n : Nat) : String := ⟨s.data.take (s.data.length - n)⟩

/-- `re.sub(r'_?(img|image|photo|pic)$', '', s)`: the leftmost match
anchored at `$` removes the longest suffix of the form
`_?` + alternative. -/
def stripCoreTail (s : String) : String :=
  if s.data.drop (s.data.length - 6) == "_image".data
      || s.data.drop (s.data.length - 6) == "_photo".data then dropLastN s 6
  else if s.data.drop (s.data.length - 5) == "image".data
      || s.data.drop (s.data.length - 5) == "photo".data then dropLastN s 5
  else if s.data.drop (s.data.length - 4) == "_img".data
      || s.data.drop (s.data.length - 4) == "_pic".data then dropLastN s 4
  else if s.data.drop (s.data.length - 3) == "img".data
      || s.data.drop (s.data.length - 3) == "pic".data then dropLastN s 3
  else s

/-- `models.ImageInfo`: per-image metadata collected by the scanner. -/
structure ImageInfo where
  filename : String
  size_mb : Rat
  dimensions : Nat × Nat
  format : String
deriving DecidableEq, Repr

namespace DataMapper

/-- `DataMapper.find_matching_image`: a blank or falsy reference yields no
match; otherwise the three tiers (exact normalized equality, mutual
containment, containment of the core-stripped non-empty forms) are tried
in order over the image keys in insertion order, returning the first hit. -/
def find_matching_image (ref_photo : Cell)
    (image_data : List (String × ImageInfo)) : Option String :=
  if pdIsna ref_photo || cellFalsy ref_photo then none
  else
    let ref_clean := normalize_filename (pyStr ref_photo)
    match image_data.find? (fun kv => normalize_filename kv.1 == ref_clean) with
    | some kv => some kv.1
    | none =>
      match image_data.find? (fun kv =>
          let image_clean := normalize_filename kv.1
          pyIn ref_clean image_clean || pyIn image_clean ref_clean) with
      | some kv => some kv.1
      | none =>
        let ref_core := stripCoreTail (stripCoreHead ref_clean)
        match image_data.find? (fun kv =>
            let image_clean := normalize_filename kv.1
            let image_core := stripCoreTail (stripCoreHead image_clean)
            ref_core != "" && image_core != ""
              && (pyIn ref_core image_core || pyIn image_core ref_core)) with
        | some kv => some kv.1
        | none => none

end DataMapper

/-- `models.Plant` (pydantic).  `yProj`, `xProj`, `altitude` and
`imageSize` are required floats — pydantic rejects `None` for them —
while `slope` is `Optional[float]`.  The `id` field (`uuid.uuid4()`) is
nondeterministic and omitted from the model; no claim mentions it. -/
structure Plant where
  refPhoto : String
  yProj : Rat
  xProj : Rat
  speciesName : String
  family : String
  formation : String
  slope : Option Rat
  exposure : String
  altitude : Rat
  imagePath : String
  imageSize : Rat
deriving DecidableEq, Repr

/-- `models.PlantDatabaseMetadata`. -/
structure PlantDatabaseMetadata where
  totalPlants : Nat
  totalImages : Nat
  successfullyMapped : Nat
  processingDate : String
  dataSource : String
  sessionId : String
deriving DecidableEq, Repr

/-- `models.PlantDatabase`. -/
structure PlantDatabase where
  metadata : PlantDatabaseMetadata
  families : List String
  plants : List Plant
deriving DecidableEq, Repr

/-- The normalized table produced by `process_excel` and consumed by
`map_data`: named columns plus data rows (each row's cells are aligned
with `columns` positionally, as in a pandas row Series). -/
structure DataFrame where
  columns : List String
  rows : List (List Cell)
deriving DecidableEq, Repr

/-- A raw pandas DataFrame as returned by
`pd.read_excel(..., header=None)`: a rectangular matrix of cells
(`len(df)` rows by `len(df.columns)` columns). -/
structure PandasDF where
  cells : List (List Cell)
  ncols : Nat
  rect : ∀ r ∈ cells, r.length = ncols

/-- `row[col]` on a pandas row Series: the cell at the position of `col`
among the column names (first position if duplicated).  A missing column
would raise `KeyError` in Python; `map_data` only reads the resolved
reference column, which is always present, and `_get_column_value`
checks membership first, so the `Cell.blank` fallback is unreachable
there. -/
def rowGet (columns : List String) (row : List Cell) (col : String) : Cell :=
  match columns.findIdx? (· == col) with
  | some i => row.getD i Cell.blank
  | none => Cell.blank

namespace DataMapper

/-- `DataMapper._get_column_value`: the first candidate column that is
present and holds a non-`NaN` value wins; otherwise the default. -/
def _get_column_value (columns : List String) (row : List Cell) :
    List String → Option Cell → Option Cell
  | [], default => default
  | col :: rest, default =>
    if columns.contains col && !(pdIsna (rowGet columns row col)) then
      some (rowGet columns row col)
    else _get_column_value columns row rest default

end DataMapper

/-- Python `str(...)` of a `_get_column_value` result (`str(None) = "None"`,
unreachable in `map_data` because the categorical defaults are strings). -/
def pyStrOpt : Option Cell → String
  | none => "None"
  | some c => pyStr c

/-- Python `repr` of a string (quote escaping not modelled; the claims
only use quote-free column names). -/
def pyReprStr (s : String) : String := "\x27" ++ s ++ "\x27"

/-- The items of a Python list repr, comma-separated. -/
def pyReprItems : List String → String
  | [] => ""
  | [s] => pyReprStr s
  | s :: rest => pyReprStr s ++ ", " ++ pyReprItems rest

/-- Python `f"...{available_columns}"` rendering of a list of strings. -/
def pyReprList (l : List String) : String := "[" ++ pyReprItems l ++ "]"

namespace DataMapper

/-- The `ColumnNotFoundError` message raised by `DataMapper.map_data`. -/
def colErrorMsg (ref_photo_column : String) (columns : List String) : String :=
  "Reference photo column \x27" ++ ref_photo_column ++
    "\x27 not found. Available columns: " ++ pyReprList columns

/-- The column-resolution head of `DataMapper.map_data` (services.py
lines 241-254): exact membership first, then the case-insensitive
whitespace-trimmed mapping `{col.lower().strip(): col}` (built by a dict
comprehension, so the last matching column wins), else the error. -/
def resolve_ref_column (columns : List String) (ref_photo_column : String) :
    Except String String :=
  if columns.contains ref_photo_column then Except.ok ref_photo_column
  else
    match (columns.filter
        (fun col => pyStrip (pyLower col) == pyStrip (pyLower ref_photo_column))).getLast? with
    | some actual_column => Except.ok actual_column
    | none => Except.error (colErrorMsg ref_photo_column columns)

/-- The body of `map_data`'s per-row `try` block: find the matching image,
look it up, extract the fields, and validate the `Plant`.  `none` means
the row contributes no record — either because no image matched, or
because the pydantic validation raised (caught by the per-row handler):
`yProj`, `xProj` and `altitude` are required floats, so a `None` from
`_safe_float_convert` skips the row. -/
def processRow (columns : List String) (image_data : List (String × ImageInfo))
    (ref_col session_id : String) (index : Nat) (row : List Cell) : Option Plant :=
  let ref_photo := rowGet columns row ref_col
  match find_matching_image ref_photo image_data with
  | none => none
  | some matching_image =>
    match List.lookup matching_image image_data with
    | none => none
    | some info =>
      let yProj := _safe_float_convert (_get_column_value columns row
        ["y_proj", "Y_Proj", "yProj", "Y", "Latitude"] none)
      let xProj := _safe_float_convert (_get_column_value columns row
        ["x_proj", "X_Proj", "xProj", "X", "Longitude"] none)
      let speciesName := pyStrOpt (_get_column_value columns row
        ["nom de l\x27espèce", "Species Name", "speciesName", "Species", "Name"]
        (some (Cell.str "Unknown Species")))
      let family := pyStrOpt (_get_column_value columns row
        ["famille", "Family", "family"] (some (Cell.str "Unknown Family")))
      let formation := pyStrOpt (_get_column_value columns row
        ["formation", "Formation", "Habitat"] (some (Cell.str "Unknown Formation")))
      let slope := _safe_float_convert (_get_column_value columns row
        ["pente", "Slope", "slope"] none)
      let exposure := pyStrOpt (_get_column_value columns row
        ["exposition", "Exposure", "exposure", "Aspect"] (some (Cell.str "Unknown")))
      let altitude := _safe_float_convert (_get_column_value columns row
        ["Altitude", "altitude", "Elevation"] (some (Cell.num 0)))
      match yProj, xProj, altitude with
      | some y, some x, some alt =>
        some { refPhoto := if pdIsna ref_photo then "ref_" ++ toString index
                           else pyStr ref_photo,
               yProj := y, xProj := x, speciesName := speciesName,
               family := family, formation := formation, slope := slope,
               exposure := exposure, altitude := alt,
               imagePath := session_id ++ "/" ++ matching_image,
               imageSize := info.size_mb }
      | _, _, _ => none

end DataMapper

/-- Lexicographic-by-code-point comparison of character lists (Python's
`<` on strings, as used by `sorted`). -/
def strLtB : List Char → List Char → Bool
  | [], [] => false
  | [], _ :: _ => true
  | _ :: _, [] => false
  | a :: as, b :: bs => if a < b then true else if b < a then false else strLtB as bs

/-- Insert a string into a sorted duplicate-free list, keeping it sorted
and duplicate-free. -/
def insertSorted (s : String) : List String → List String
  | [] => [s]
  | t :: ts =>
    if s == t then t :: ts
    else if strLtB s.data t.data then s :: t :: ts
    else t :: insertSorted s ts

/-- `sorted(list(families))` where `families` is the Python set of family
values added during the row loop: the sorted duplicate-free enumeration
of the collected values. -/
def sortedFamilies (l : List String) : List String :=
  l.foldl (fun acc s => insertSorted s acc) []

namespace DataMapper

/-- The row loop of `map_data` (`for index, row in excel_data.iterrows()`),
threading the `plants` list, the order of `families.add` calls, and the
`successful_mappings` counter. -/
def rowLoop (columns : List String) (image_data : List (String × ImageInfo))
    (ref_col session_id : String) :
    Nat → List (List Cell) → List Plant × List String × Nat →
      List Plant × List String × Nat
  | _, [], acc => acc
  | index, row :: rest, (plants, families, successful_mappings) =>
    match processRow columns image_data ref_col session_id index row with
    | none =>
      rowLoop columns image_data ref_col session_id (index + 1) rest
        (plants, families, successful_mappings)
    | some plant =>
      rowLoop columns image_data ref_col session_id (index + 1) rest
        (plants ++ [plant], families ++ [plant.family], successful_mappings + 1)

/-- `DataMapper.map_data`: resolve the reference-photo column, run the row
loop, and package the `PlantDatabase`.  `now` stands for
`datetime.now().isoformat()`. -/
def map_data (excel_data : DataFrame) (image_data : List (String × ImageInfo))
    (ref_photo_column session_id now : String) : Except String PlantDatabase :=
  match resolve_ref_column excel_data.columns ref_photo_column with
  | Except.error e => Except.error e
  | Except.ok actual_column =>
    let res := rowLoop excel_data.columns image_data actual_column session_id 0
      excel_data.rows ([], [], 0)
    Except.ok
      { metadata :=
          { totalPlants := res.1.length,
            totalImages := image_data.length,
            successfullyMapped := res.2.2,
            processingDate := now,
            dataSource := "Excel upload - Session " ++ session_id,
            sessionId := session_id },
        families := sortedFamilies res.2.1,
        plants := res.1 }

end DataMapper

namespace ExcelProcessor

/-- The message of `"Start row {start_row} is beyond the data range.
Excel has {len(df)} rows."`. -/
def msgStartRow (start_row nrows : Nat) : String :=
  "Start row " ++ toString start_row ++ " is beyond the data range. Excel has "
    ++ toString nrows ++ " rows."

/-- The message of `"Start column {start_col} is beyond the data range.
Excel has {len(df.columns)} columns."`. -/
def msgStartCol (start_col ncols : Nat) : String :=
  "Start column " ++ toString start_col ++ " is beyond the data range. Excel has "
    ++ toString ncols ++ " columns."

/-- The message of `"No data rows found after header row {start_row}"`. -/
def msgNoData (start_row : Nat) : String :=
  "No data rows found after header row " ++ toString start_row

/-- The outer `except` of `process_excel` re-raises every error as
`"Error processing Excel data: {str(e)}"`. -/
def excelWrap (m : String) : String := "Error processing Excel data: " ++ m

/-- The header clean-up loop of `process_excel`: a blank or
whitespace-only header cell is synthesized as
`Column_{start_col + i}`, otherwise the trimmed string form is used. -/
def cleanHeaders (start_col : Nat) (header_row : List Cell) : List String :=
  (List.range header_row.length).map (fun i =>
    let header := header_row.getD i Cell.blank
    if pdIsna header || pyStrip (pyStr header) == "" then
      "Column_" ++ toString (start_col + i)
    else pyStrip (pyStr header))

/-- `ExcelProcessor.process_excel` on an already-loaded sheet (the
`pd.read_excel` call and its file errors are outside the model): validate
the origin, slice the header row and the data block, clean the headers and
assign them (truncated to the data column count, `len(df.columns) -
start_col`).  Row and column indices are the nonnegative integers the HTTP
layer supplies. -/
def process_excel (df : PandasDF) (start_row start_col : Nat) :
    Except String DataFrame :=
  if start_row ≥ df.cells.length then
    Except.error (excelWrap (msgStartRow start_row df.cells.length))
  else if start_col ≥ df.ncols then
    Except.error (excelWrap (msgStartCol start_col df.ncols))
  else
    let header_row := (df.cells.getD start_row []).drop start_col
    if start_row + 1 ≥ df.cells.length then
      Except.error (excelWrap (msgNoData start_row))
    else
      let data_rows := (df.cells.drop (start_row + 1)).map (fun r => r.drop start_col)
      let clean_headers := cleanHeaders start_col header_row
      Except.ok ⟨clean_headers.take (df.ncols - start_col), data_rows⟩

end ExcelProcessor

/-- A directory entry as `process_images` observes it: the filename, the
`os.path.isfile` answer, whether `PIL.Image.open` succeeds, and the
metadata PIL and `os.path.getsize` would report for it. -/
structure DirEntry where
  name : String
  is_file : Bool
  open_ok : Bool
  width : Nat
  height : Nat
  pil_format : Option String
  size_bytes : Nat

namespace ImageProcessor

/-- The supported extension set of `ImageProcessor.__init__`. -/
def supported_formats : List String :=
  [".jpg", ".jpeg", ".png", ".bmp", ".tiff", ".tif"]

/-- `round(x, 2)` followed by `os.path.getsize(...) / (1024 * 1024)`:
megabytes rounded to two decimals.  Python's `round` on floats rounds
half to even on the binary value; the model rounds the exact rational
(no claim depends on the rounded value). -/
def sizeMB (size_bytes : Nat) : Rat :=
  (round (((size_bytes : Rat) / (1024 * 1024)) * 100) : Int) / 100

/-- `format_type or file_ext[1:].upper()`: PIL's declared format, falling
back to the upper-cased extension when PIL reports `None` (or a falsy
empty string). -/
def formatOr (pil_format : Option String) (file_ext : String) : String :=
  match pil_format with
  | none => ⟨(file_ext.data.drop 1).map Char.toUpper⟩
  | some f => if f == "" then ⟨(file_ext.data.drop 1).map Char.toUpper⟩ else f

/-- `ImageProcessor.process_images`: an absent directory
(`not os.path.exists`) and a failing `os.listdir` (modelled by
`listing = none`) both return the empty mapping; otherwise non-files,
unsupported extensions and files PIL cannot open are skipped, and each
remaining file contributes one `ImageInfo` keyed by filename, in
directory-listing order. -/
def process_images (dir_exists : Bool) (listing : Option (List DirEntry)) :
    List (String × ImageInfo) :=
  if !dir_exists then []
  else
    match listing with
    | none => []
    | some all_files =>
      all_files.foldl (fun image_data f =>
        if !f.is_file then image_data
        else
          let file_ext : String := pyLower ⟨pathSuffix f.name.data⟩
          if !(supported_formats.contains file_ext) then image_data
          else if !f.open_ok then image_data
          else image_data ++
            [(f.name,
              { filename := f.name, size_mb := sizeMB f.size_bytes,
                dimensions := (f.width, f.height),
                format := formatOr f.pil_format file_ext })]) []

end ImageProcessor

namespace DataMapper

/-- The list of records the row loop produces (specification companion of
`rowLoop`, used to state its characterization). -/
def collectPlants (columns : List String) (image_data : List (String × ImageInfo))
    (ref_col session_id : String) : Nat → List (List Cell) → List Plant
  | _, [] => []
  | index, row :: rest =>
    match processRow columns image_data ref_col session_id index row with
    | none => collectPlants columns image_data ref_col session_id (index + 1) rest
    | some plant =>
      plant :: collectPlants columns image_data ref_col session_id (index + 1) rest

end DataMapper

/-- `sub` occurs contiguously inside `msg` (Python's `in`, as a `Prop`). -/
def hasSub (msg sub : String) : Prop := sub.data <:+: msg.data

/-- A sample image record (the metadata fields play no role in matching). -/
def sampleImage : ImageInfo := ⟨"x", 1, (10, 10), "JPEG"⟩

/-- A one-image mapping whose only key is `a.jpg`. -/
def imagesOne : List (String × ImageInfo) := [("a.jpg", sampleImage)]

/-- The image mapping of the spec's reconciliation example:
`plant_01.jpg` and `Plant-02.PNG`. -/
def imagesPlants : List (String × ImageInfo) :=
  [("plant_01.jpg", sampleImage), ("Plant-02.PNG", sampleImage)]

/-- The table of the spec's reconciliation example, with numeric
projection columns so that rows can pass pydantic validation. -/
def tablePlants : DataFrame :=
  ⟨["ref_photo", "y_proj", "x_proj"],
   [[Cell.str "plant_01", Cell.num 1, Cell.num 2],
    [Cell.str "PLANT 02", Cell.num 3, Cell.num 4]]⟩

/-- Two rows, only the first of which matches an image of `imagesOne`. -/
def tableTwoRows : DataFrame :=
  ⟨["ref", "y_proj", "x_proj"],
   [[Cell.str "a", Cell.num 1, Cell.num 2],
    [Cell.str "zz", Cell.num 1, Cell.num 2]]⟩

/-- One matched row whose `y_proj` cell holds the non-numeric string
`N/A`. -/
def tableNA : DataFrame :=
  ⟨["ref", "y_proj", "x_proj"], [[Cell.str "a", Cell.str "N/A", Cell.num 2]]⟩

/-- One matched row with numeric projections and a non-numeric slope
cell. -/
def tableSlopeNA : DataFrame :=
  ⟨["ref", "y_proj", "x_proj", "pente"],
   [[Cell.str "a", Cell.num 1, Cell.num 2, Cell.str "N/A"]]⟩

/-- One matched row carrying only the reference and projection columns,
so every other field falls back to its default. -/
def tableDefaults : DataFrame :=
  ⟨["ref", "y_proj", "x_proj"], [[Cell.str "a", Cell.num 1, Cell.num 2]]⟩

/-- A 3-row, 2-column raw sheet. -/
def sheetSmall : PandasDF :=
  ⟨[[Cell.str "H", Cell.blank],
    [Cell.num 1, Cell.num 2],
    [Cell.num 3, Cell.num 4]], 2, by decide⟩

/-- A 2-row, 1-column raw sheet: choosing the second row as origin leaves
no data rows. -/
def sheetTwoRows : PandasDF :=
  ⟨[[Cell.str "H"], [Cell.num 1]], 1, by decide⟩

namespace DataMapper

/-- The row loop of `map_data` appends exactly the records `collectPlants`
describes, records their `family` fields in order, and counts them. -/
theorem rowLoop_eq (columns : List String) (image_data : List (String × ImageInfo))
    (ref_col session_id : String) (rows : List (List Cell)) :
    ∀ (index : Nat) (ps : List Plant) (fs : List String) (n : Nat),
      rowLoop columns image_data ref_col session_id index rows (ps, fs, n) =
        (ps ++ collectPlants columns image_data ref_col session_id index rows,
         fs ++ (collectPlants columns image_data ref_col session_id index rows).map Plant.family,
         n + (collectPlants columns image_data ref_col session_id index rows).length) := by
  induction rows with
  | nil => intro index ps fs n; simp [rowLoop, collectPlants]
  | cons row rest ih =>
    intro index ps fs n
    cases hp : processRow columns image_data ref_col session_id index row with
    | none => simp [rowLoop, collectPlants, hp, ih]
    | some plant => simp [rowLoop, collectPlants, hp, ih]; omega

/-- At most one record is produced per table row. -/
theorem collectPlants_length_le (columns : List String)
    (image_data : List (String × ImageInfo)) (ref_col session_id : String)
    (rows : List (List Cell)) :
    ∀ index, (collectPlants columns image_data ref_col session_id index rows).length
      ≤ rows.length := by
  induction rows with
  | nil => intro index; simp [collectPlants]
  | cons row rest ih =>
    intro index
    cases hp : processRow columns image_data ref_col session_id index row with
    | none =>
      simp only [collectPlants, hp, List.length_cons]
      exact Nat.le_succ_of_le (ih (index + 1))
    | some plant =>
      simp only [collectPlants, hp, List.length_cons]
      exact Nat.succ_le_succ (ih (index + 1))

/-- A row whose reference matches no image contributes no record. -/
theorem processRow_eq_none_of_no_match (columns : List String)
    (image_data : List (String × ImageInfo)) (ref_col session_id : String)
    (index : Nat) (row : List Cell)
    (h : find_matching_image (rowGet columns row ref_col) image_data = none) :
    processRow columns image_data ref_col session_id index row = none := by
  simp [processRow, h]

/-- If some row matches no image, strictly fewer records than rows are
produced. -/
theorem collectPlants_length_lt (columns : List String)
    (image_data : List (String × ImageInfo)) (ref_col session_id : String)
    (rows : List (List Cell))
    (h : ∃ row ∈ rows, find_matching_image (rowGet columns row ref_col) image_data = none) :
    ∀ index, (collectPlants columns image_data ref_col session_id index rows).length
      < rows.length := by
  induction rows with
  | nil => rcases h with ⟨r, hr, _⟩; cases hr
  | cons row rest ih =>
    intro index
    rcases h with ⟨r, hr, hnone⟩
    rcases List.mem_cons.mp hr with rfl | hr
    · have hp := processRow_eq_none_of_no_match columns image_data ref_col session_id index r hnone
      simp only [collectPlants, hp, List.length_cons]
      exact Nat.lt_succ_of_le (collectPlants_length_le columns image_data ref_col session_id rest (index + 1))
    · cases hp : processRow columns image_data ref_col session_id index row with
      | none =>
        simp only [collectPlants, hp, List.length_cons]
        exact Nat.lt_succ_of_lt (ih ⟨r, hr, hnone⟩ (index + 1))
      | some plant =>
        simp only [collectPlants, hp, List.length_cons]
        exact Nat.succ_lt_succ (ih ⟨r, hr, hnone⟩ (index + 1))

end DataMapper

/-- `strLtB` decides the lexicographic order on character lists. -/
theorem strLtB_iff : ∀ (a b : List Char), strLtB a b = true ↔ List.Lex (· < ·) a b
  | [], [] => by
    simp only [strLtB, Bool.false_eq_true, false_iff]
    intro h; cases h
  | [], b :: bs => by
    simp only [strLtB, true_iff]
    exact List.Lex.nil
  | a :: as, [] => by
    simp only [strLtB, Bool.false_eq_true, false_iff]
    intro h; cases h
  | a :: as, b :: bs => by
    simp only [strLtB]
    by_cases hab : a < b
    · simp only [hab, if_true, true_iff]
      exact List.Lex.rel hab
    · simp only [hab, if_false]
      by_cases hba : b < a
      · simp only [hba, if_true, Bool.false_eq_true, false_iff]
        intro h
        cases h with
        | rel h => exact hab h
        | cons h => exact absurd rfl (ne_of_gt hba)
      · simp only [hba, if_false]
        have heq : a = b := le_antisymm (le_of_not_lt hba) (le_of_not_lt hab)
        subst heq
        rw [strLtB_iff as bs]
        constructor
        · exact List.Lex.cons
        · intro h
          cases h with
          | rel h => exact absurd h hab
          | cons h => exact h

/-- `strLtB` on the underlying data decides `<` on strings. -/
theorem strLtB_lt_iff (s t : String) : strLtB s.data t.data = true ↔ s < t := by
  rw [String.lt_iff_toList_lt]
  exact strLtB_iff s.data t.data

/-- Membership in `insertSorted`. -/
theorem mem_insertSorted (s x : String) :
    ∀ (l : List String), x ∈ insertSorted s l ↔ x = s ∨ x ∈ l := by
  intro l
  induction l with
  | nil => simp [insertSorted]
  | cons t ts ih =>
    simp only [insertSorted]
    by_cases hst : s = t
    · subst hst
      simp only [beq_self_eq_true, if_true]
      constructor
      · intro h; exact Or.inr h
      · rintro (rfl | h)
        · exact List.mem_cons_self _ _
        · exact h
    · rw [if_neg (by simpa using hst)]
      by_cases hlt : strLtB s.data t.data = true
      · rw [if_pos hlt]
        simp [List.mem_cons]
      · rw [if_neg hlt]
        simp only [List.mem_cons, ih]
        tauto

/-- `insertSorted` preserves sortedness. -/
theorem sorted_insertSorted (s : String) :
    ∀ (l : List String), List.Sorted (· < ·) l → List.Sorted (· < ·) (insertSorted s l) := by
  intro l
  induction l with
  | nil => intro _; simp [insertSorted]
  | cons t ts ih =>
    intro hsorted
    rw [List.sorted_cons] at hsorted
    obtain ⟨hall, hts⟩ := hsorted
    simp only [insertSorted]
    by_cases hst : s = t
    · subst hst
      simp only [beq_self_eq_true, if_true]
      rw [List.sorted_cons]
      exact ⟨hall, hts⟩
    · rw [if_neg (by simpa using hst)]
      by_cases hlt : strLtB s.data t.data = true
      · rw [if_pos hlt]
        have hstlt : s < t := (strLtB_lt_iff s t).mp hlt
        rw [List.sorted_cons]
        constructor
        · intro b hb
          rcases List.mem_cons.mp hb with rfl | hb
          · exact hstlt
          · exact lt_trans hstlt (hall b hb)
        · rw [List.sorted_cons]; exact ⟨hall, hts⟩
      · rw [if_neg hlt]
        have hts' : t < s := by
          rcases lt_trichotomy s t with h | h | h
          · exact absurd ((strLtB_lt_iff s t).mpr h) hlt
          · exact absurd h hst
          · exact h
        rw [List.sorted_cons]
        constructor
        · intro b hb
          rcases (mem_insertSorted s b ts).mp hb with rfl | hb
          · exact hts'
          · exact hall b hb
        · exact ih hts

/-- Folding `insertSorted` over a list preserves sortedness of the
accumulator. -/
theorem sortedFamilies_sorted_aux :
    ∀ (l : List String) (acc : List String), List.Sorted (· < ·) acc →
      List.Sorted (· < ·) (l.foldl (fun acc s => insertSorted s acc) acc) := by
  intro l
  induction l with
  | nil => intro acc h; simpa using h
  | cons s rest ih =>
    intro acc h
    simp only [List.foldl_cons]
    exact ih (insertSorted s acc) (sorted_insertSorted s acc h)

/-- Membership under the `insertSorted` fold. -/
theorem mem_sortedFamilies_aux :
    ∀ (l : List String) (acc : List String) (x : String),
      x ∈ l.foldl (fun acc s => insertSorted s acc) acc ↔ x ∈ acc ∨ x ∈ l := by
  intro l
  induction l with
  | nil => intro acc x; simp
  | cons s rest ih =>
    intro acc x
    simp only [List.foldl_cons, ih (insertSorted s acc) x, mem_insertSorted, List.mem_cons]
    tauto

/-- `sortedFamilies` returns a strictly sorted list. -/
theorem sortedFamilies_sorted (l : List String) :
    List.Sorted (· < ·) (sortedFamilies l) :=
  sortedFamilies_sorted_aux l [] (by simp)

/-- `sortedFamilies` preserves membership. -/
theorem mem_sortedFamilies (l : List String) (x : String) :
    x ∈ sortedFamilies l ↔ x ∈ l := by
  rw [sortedFamilies, mem_sortedFamilies_aux l [] x]
  simp

/-- Every string occurs in itself. -/
theorem hasSub_self (s : String) : hasSub s s := List.infix_rfl

/-- Occurrence is preserved by prepending. -/
theorem hasSub_append_left (p m s : String) (h : hasSub m s) : hasSub (p ++ m) s := by
  unfold hasSub at *
  rw [String.data_append]
  exact h.trans (List.suffix_append p.data m.data).isInfix

/-- Occurrence is preserved by appending. -/
theorem hasSub_append_right (m q s : String) (h : hasSub m s) : hasSub (m ++ q) s := by
  unfold hasSub at *
  rw [String.data_append]
  exact h.trans (List.prefix_append m.data q.data).isInfix

/-- Every listed column name occurs in the rendered item list. -/
theorem hasSub_reprItems (c : String) :
    ∀ (l : List String), c ∈ l → hasSub (pyReprItems l) c := by
  intro l
  induction l with
  | nil => intro h; cases h
  | cons s rest ih =>
    intro hmem
    rcases List.mem_cons.mp hmem with rfl | hmem
    · cases rest with
      | nil =>
        show hasSub (pyReprStr c) c
        unfold pyReprStr
        exact hasSub_append_right _ _ _ (hasSub_append_left _ _ _ (hasSub_self c))
      | cons t ts =>
        show hasSub (pyReprStr c ++ ", " ++ pyReprItems (t :: ts)) c
        exact hasSub_append_right _ _ _ (hasSub_append_right _ _ _
          (hasSub_append_right _ _ _ (hasSub_append_left _ _ _ (hasSub_self c))))
    · cases rest with
      | nil => cases hmem
      | cons t ts =>
        show hasSub (pyReprStr s ++ ", " ++ pyReprItems (t :: ts)) c
        exact hasSub_append_left _ _ _ (ih hmem)

/-- Every listed column name occurs in the rendered Python list. -/
theorem hasSub_reprList (c : String) (l : List String) (h : c ∈ l) :
    hasSub (pyReprList l) c := by
  unfold pyReprList
  exact hasSub_append_right _ _ _ (hasSub_append_left _ _ _ (hasSub_reprItems c l h))

/-- The `ColumnNotFoundError` message contains the requested column. -/
theorem hasSub_colErrorMsg_ref (rpc : String) (columns : List String) :
    hasSub (DataMapper.colErrorMsg rpc columns) rpc := by
  unfold DataMapper.colErrorMsg
  exact hasSub_append_right _ _ _ (hasSub_append_right _ _ _
    (hasSub_append_left _ _ _ (hasSub_self rpc)))

/-- The `ColumnNotFoundError` message contains every available column. -/
theorem hasSub_colErrorMsg_col (rpc : String) (columns : List String) (c : String)
    (h : c ∈ columns) : hasSub (DataMapper.colErrorMsg rpc columns) c := by
  unfold DataMapper.colErrorMsg
  exact hasSub_append_left _ _ _ (hasSub_reprList c columns h)

/-- Looking up a key present in the association list succeeds. -/
theorem lookup_isSome_of_mem_keys (f : String) :
    ∀ (l : List (String × ImageInfo)), f ∈ l.map Prod.fst → (List.lookup f l).isSome := by
  intro l
  induction l with
  | nil => intro h; cases h
  | cons kv rest ih =>
    intro hmem
    have hmem' : f ∈ kv.1 :: rest.map Prod.fst := by simpa using hmem
    by_cases hf : f = kv.1
    · simp [List.lookup, hf]
    · have h1 : f ∈ rest.map Prod.fst := by
        rcases List.mem_cons.mp hmem' with h | h
        · exact absurd h hf
        · exact h
      simp only [List.lookup]
      rw [show (f == kv.1) = false by simpa using hf]
      exact ih h1

/-- The last element of a list is an element of it. -/
theorem mem_of_getLast?_some {α : Type} :
    ∀ (l : List α) (a : α), l.getLast? = some a → a ∈ l
  | [], a, h => by cases h
  | [x], a, h => by
    rw [List.getLast?_singleton] at h
    cases h
    exact List.mem_singleton_self x
  | x :: y :: xs, a, h => by
    rw [List.getLast?_cons_cons] at h
    exact List.mem_cons_of_mem x (mem_of_getLast?_some (y :: xs) a h)

/-- Claim C9: for every reference value and image mapping,
`find_matching_image` returns either nothing or a filename that is a key
of the mapping, so the subsequent `image_data[matching_image]` lookups in
`map_data` never fail. -/
theorem claim_C9 (ref_photo : Cell) (image_data : List (String × ImageInfo)) (f : String)
    (h : DataMapper.find_matching_image ref_photo image_data = some f) :
    f ∈ image_data.map Prod.fst ∧ (List.lookup f image_data).isSome := by
  have hmem : f ∈ image_data.map Prod.fst := by
    unfold DataMapper.find_matching_image at h
    split at h
    · cases h
    · simp only [] at h
      split at h
      · rename_i kv heq
        cases h
        exact List.mem_map_of_mem Prod.fst (List.mem_of_find?_eq_some heq)
      · split at h
        · rename_i kv heq
          cases h
          exact List.mem_map_of_mem Prod.fst (List.mem_of_find?_eq_some heq)
        · split at h
          · rename_i kv heq
            cases h
            exact List.mem_map_of_mem Prod.fst (List.mem_of_find?_eq_some heq)
          · cases h
  exact ⟨hmem, lookup_isSome_of_mem_keys f image_data hmem⟩

/-- Claim C6: `map_data` resolves the reference-photo column by exact
match first, then by a case-insensitive whitespace-trimmed comparison
(a table with column `" Family "` resolves a request for `"family"`),
and otherwise fails with a message naming the requested column and
containing every available column name. -/
theorem claim_C6 (columns : List String) (rpc : String) :
    (rpc ∈ columns → DataMapper.resolve_ref_column columns rpc = Except.ok rpc)
    ∧ (rpc ∉ columns →
        (∃ c ∈ columns, pyStrip (pyLower c) = pyStrip (pyLower rpc)) →
          ∃ c ∈ columns, DataMapper.resolve_ref_column columns rpc = Except.ok c ∧
            pyStrip (pyLower c) = pyStrip (pyLower rpc))
    ∧ DataMapper.resolve_ref_column [" Family "] "family" = Except.ok " Family "
    ∧ (∀ msg, DataMapper.resolve_ref_column columns rpc = Except.error msg →
        (¬ ∃ c ∈ columns, pyStrip (pyLower c) = pyStrip (pyLower rpc)) ∧
          hasSub msg rpc ∧ ∀ c ∈ columns, hasSub msg c) := by
  refine ⟨?_, ?_, ?_, ?_⟩
  · intro hmem
    unfold DataMapper.resolve_ref_column
    rw [if_pos (by simpa using hmem)]
  · intro hnot hex
    unfold DataMapper.resolve_ref_column
    rw [if_neg (by simpa using hnot)]
    rcases hex with ⟨c, hc, hprop⟩
    have hfil : c ∈ columns.filter
        (fun col => pyStrip (pyLower col) == pyStrip (pyLower rpc)) :=
      List.mem_filter.mpr ⟨hc, by simpa using hprop⟩
    have hne : columns.filter
        (fun col => pyStrip (pyLower col) == pyStrip (pyLower rpc)) ≠ [] :=
      List.ne_nil_of_mem hfil
    cases hlast : (columns.filter
        (fun col => pyStrip (pyLower col) == pyStrip (pyLower rpc))).getLast? with
    | none =>
      exact absurd (by simpa using congrArg Option.isSome hlast)
        (by simpa using (List.getLast?_isSome).mpr hne)
    | some actual =>
      have hmema := mem_of_getLast?_some _ _ hlast
      have := List.mem_filter.mp hmema
      exact ⟨actual, this.1, rfl, by simpa using this.2⟩
  · rfl
  · intro msg herr
    unfold DataMapper.resolve_ref_column at herr
    by_cases hc : columns.contains rpc
    · rw [if_pos hc] at herr; cases herr
    · rw [if_neg hc] at herr
      cases hlast : (columns.filter
          (fun col => pyStrip (pyLower col) == pyStrip (pyLower rpc))).getLast? with
      | some actual => rw [hlast] at herr; cases herr
      | none =>
        rw [hlast] at herr
        cases herr
        refine ⟨?_, hasSub_colErrorMsg_ref rpc columns,
          fun c hc' => hasSub_colErrorMsg_col rpc columns c hc'⟩
        rintro ⟨c, hcmem, hprop⟩
        have hfil : c ∈ columns.filter
            (fun col => pyStrip (pyLower col) == pyStrip (pyLower rpc)) :=
          List.mem_filter.mpr ⟨hcmem, by simpa using hprop⟩
        have hne := List.ne_nil_of_mem hfil
        have := (List.getLast?_isSome).mpr hne
        rw [hlast] at this
        cases this

/-- Claim C8: scanning a directory that does not exist returns the empty
mapping and never raises, whatever listing the filesystem would have
produced. -/
theorem claim_C8 (listing : Option (List DirEntry)) :
    ImageProcessor.process_images false listing = [] := rfl

/-- Claim C10: in every result of `map_data`, `totalPlants` and
`successfullyMapped` both equal the length of the emitted plants list,
and `families` is sorted, duplicate-free, and contains exactly the
family values of the emitted records. -/
theorem claim_C10 (excel_data : DataFrame) (image_data : List (String × ImageInfo))
    (ref_photo_column session_id now : String) (db : PlantDatabase)
    (h : DataMapper.map_data excel_data image_data ref_photo_column session_id now
      = Except.ok db) :
    db.metadata.totalPlants = db.plants.length ∧
    db.metadata.successfullyMapped = db.plants.length ∧
    List.Sorted (· < ·) db.families ∧ db.families.Nodup ∧
    (∀ s, s ∈ db.families ↔ s ∈ db.plants.map Plant.family) := by
  unfold DataMapper.map_data at h
  cases hres : DataMapper.resolve_ref_column excel_data.columns ref_photo_column with
  | error e => rw [hres] at h; cases h
  | ok actual =>
    rw [hres] at h
    simp only [] at h
    rw [DataMapper.rowLoop_eq] at h
    cases h
    simp only [List.nil_append, Nat.zero_add]
    refine ⟨trivial, trivial, sortedFamilies_sorted _, (sortedFamilies_sorted _).nodup, ?_⟩
    intro s
    exact mem_sortedFamilies _ s

/-- Claim C1 (amended): the summary counters of `map_data` both count the
records actually produced — `successfullyMapped` always equals
`totalPlants` — and when some row matches no image that common count is
strictly less than the number of table rows considered (which is not
itself a field of the result). -/
theorem claim_C1 (excel_data : DataFrame) (image_data : List (String × ImageInfo))
    (ref_photo_column session_id now actual : String) (db : PlantDatabase)
    (hres : DataMapper.resolve_ref_column excel_data.columns ref_photo_column
      = Except.ok actual)
    (h : DataMapper.map_data excel_data image_data ref_photo_column session_id now
      = Except.ok db)
    (hrow : ∃ row ∈ excel_data.rows,
      DataMapper.find_matching_image (rowGet excel_data.columns row actual) image_data
        = none) :
    db.metadata.successfullyMapped = db.metadata.totalPlants ∧
    db.metadata.totalPlants = db.plants.length ∧
    db.plants.length < excel_data.rows.length := by
  unfold DataMapper.map_data at h
  rw [hres] at h
  simp only [] at h
  rw [DataMapper.rowLoop_eq] at h
  cases h
  simp only [List.nil_append, Nat.zero_add]
  exact ⟨trivial, trivial,
    DataMapper.collectPlants_length_lt excel_data.columns image_data actual session_id
      excel_data.rows hrow 0⟩

/-- `process_excel` succeeds on an in-bounds origin with the sliced
headers and data rows. -/
theorem process_excel_ok (df : PandasDF) (start_row start_col : Nat)
    (h1 : start_row < df.cells.length) (h2 : start_col < df.ncols)
    (h3 : start_row + 1 < df.cells.length) :
    ExcelProcessor.process_excel df start_row start_col = Except.ok
      ⟨(ExcelProcessor.cleanHeaders start_col
          ((df.cells.getD start_row []).drop start_col)).take (df.ncols - start_col),
       (df.cells.drop (start_row + 1)).map (fun r => r.drop start_col)⟩ := by
  unfold ExcelProcessor.process_excel
  rw [if_neg (Nat.not_le.mpr h1), if_neg (Nat.not_le.mpr h2)]
  simp only []
  rw [if_neg (Nat.not_le.mpr h3)]

/-- Every row of a rectangular sheet has `ncols` cells. -/
theorem getD_row_length (df : PandasDF) (start_row : Nat)
    (h1 : start_row < df.cells.length) :
    (df.cells.getD start_row []).length = df.ncols := by
  have hmem : df.cells.getD start_row [] ∈ df.cells := by
    rw [List.getD_eq_getElem?_getD, List.getElem?_eq_getElem h1]
    simp only [Option.getD_some]
    exact List.getElem_mem h1
  exact df.rect _ hmem

/-- Claim C4: for every sheet and in-bounds origin with at least one data
row below the header, `process_excel` succeeds and returns a table with
`totalCols - originCol` columns and `totalRows - originRow - 1` rows. -/
theorem claim_C4 (df : PandasDF) (start_row start_col : Nat)
    (h1 : start_row < df.cells.length) (h2 : start_col < df.ncols)
    (h3 : start_row + 1 < df.cells.length) :
    ∃ t, ExcelProcessor.process_excel df start_row start_col = Except.ok t ∧
      t.columns.length = df.ncols - start_col ∧
      t.rows.length = df.cells.length - start_row - 1 := by
  refine ⟨_, process_excel_ok df start_row start_col h1 h2 h3, ?_, ?_⟩
  · simp only [ExcelProcessor.cleanHeaders, List.length_take, List.length_map,
      List.length_range, List.length_drop, getD_row_length df start_row h1]
    omega
  · simp only [List.length_map, List.length_drop]
    omega

/-- Claim C5 (amended): `process_excel` fails exactly when
`originRow >= totalRows`, or `originCol >= totalCols`, or no data rows
remain below the header row; the out-of-range messages name the offending
index and the sheet's actual bound, while the no-data-rows message names
only the header row index. -/
theorem claim_C5 (df : PandasDF) (start_row start_col : Nat) :
    ((∃ m, ExcelProcessor.process_excel df start_row start_col = Except.error m) ↔
      (df.cells.length ≤ start_row ∨ df.ncols ≤ start_col ∨
        df.cells.length ≤ start_row + 1))
    ∧ (∀ m, ExcelProcessor.process_excel df start_row start_col = Except.error m →
        ((df.cells.length ≤ start_row →
            hasSub m (toString start_row) ∧ hasSub m (toString df.cells.length))
        ∧ (start_row < df.cells.length → df.ncols ≤ start_col →
            hasSub m (toString start_col) ∧ hasSub m (toString df.ncols))
        ∧ (start_row < df.cells.length → start_col < df.ncols →
            hasSub m (toString start_row)))) := by
  by_cases c1 : df.cells.length ≤ start_row
  · have herr : ExcelProcessor.process_excel df start_row start_col = Except.error
        (ExcelProcessor.excelWrap
          (ExcelProcessor.msgStartRow start_row df.cells.length)) := by
      unfold ExcelProcessor.process_excel
      rw [if_pos (by omega)]
    refine ⟨⟨fun _ => Or.inl c1, fun _ => ⟨_, herr⟩⟩, ?_⟩
    intro m hm
    rw [herr] at hm
    cases hm
    refine ⟨fun _ => ⟨?_, ?_⟩, fun hlt _ => absurd c1 (by omega), fun hlt _ => absurd c1 (by omega)⟩
    · exact hasSub_append_left _ _ _ (hasSub_append_right _ _ _ (hasSub_append_right _ _ _
        (hasSub_append_right _ _ _ (hasSub_append_left _ _ _ (hasSub_self _)))))
    · exact hasSub_append_left _ _ _ (hasSub_append_right _ _ _
        (hasSub_append_left _ _ _ (hasSub_self _)))
  · by_cases c2 : df.ncols ≤ start_col
    · have herr : ExcelProcessor.process_excel df start_row start_col = Except.error
          (ExcelProcessor.excelWrap
            (ExcelProcessor.msgStartCol start_col df.ncols)) := by
        unfold ExcelProcessor.process_excel
        rw [if_neg (by omega), if_pos (by omega)]
      refine ⟨⟨fun _ => Or.inr (Or.inl c2), fun _ => ⟨_, herr⟩⟩, ?_⟩
      intro m hm
      rw [herr] at hm
      cases hm
      refine ⟨fun hc => absurd hc (by omega), fun _ _ => ⟨?_, ?_⟩,
        fun _ hlt => absurd c2 (by omega)⟩
      · exact hasSub_append_left _ _ _ (hasSub_append_right _ _ _ (hasSub_append_right _ _ _
          (hasSub_append_right _ _ _ (hasSub_append_left _ _ _ (hasSub_self _)))))
      · exact hasSub_append_left _ _ _ (hasSub_append_right _ _ _
          (hasSub_append_left _ _ _ (hasSub_self _)))
    · by_cases c3 : df.cells.length ≤ start_row + 1
      · have herr : ExcelProcessor.process_excel df start_row start_col = Except.error
            (ExcelProcessor.excelWrap (ExcelProcessor.msgNoData start_row)) := by
          unfold ExcelProcessor.process_excel
          rw [if_neg (by omega), if_neg (by omega)]
          simp only []
          rw [if_pos (by omega)]
        refine ⟨⟨fun _ => Or.inr (Or.inr c3), fun _ => ⟨_, herr⟩⟩, ?_⟩
        intro m hm
        rw [herr] at hm
        cases hm
        refine ⟨fun hc => absurd hc (by omega), fun _ hc => absurd hc (by omega),
          fun _ _ => ?_⟩
        exact hasSub_append_left _ _ _ (hasSub_append_left _ _ _ (hasSub_self _))
      · have hok := process_excel_ok df start_row start_col (by omega) (by omega) (by omega)
        refine ⟨⟨?_, ?_⟩, ?_⟩
        · rintro ⟨m, hm⟩
          rw [hok] at hm
          cases hm
        · intro hc
          rcases hc with hc | hc | hc
          · exact absurd hc c1
          · exact absurd hc c2
          · exact absurd hc c3
        · intro m hm
          rw [hok] at hm
          cases hm

/-- Claim C1 counterexample: a run in which one of two rows matches no
image, yet `successfullyMapped` is not strictly less than `totalPlants` —
both are 1, because `totalPlants` counts produced records, not rows. -/
theorem claim_C1_cex :
    (DataMapper.map_data tableTwoRows imagesOne "ref" "s" "t").toOption.map
        (fun db => decide (db.metadata.successfullyMapped < db.metadata.totalPlants))
      = some false ∧
    (DataMapper.map_data tableTwoRows imagesOne "ref" "s" "t").toOption.map
        (fun db => (db.metadata.totalPlants, db.plants.length))
      = some (1, 1) ∧
    DataMapper.find_matching_image
        (rowGet tableTwoRows.columns [Cell.str "zz", Cell.num 1, Cell.num 2] "ref")
        imagesOne = none := by
  refine ⟨?_, ?_, ?_⟩ <;> decide

/-- Claim C1 witness: the amended statement at a concrete run. -/
theorem claim_C1_witness :
    ∃ db, DataMapper.map_data tableTwoRows imagesOne "ref" "s" "t" = Except.ok db ∧
      db.metadata.successfullyMapped = db.metadata.totalPlants ∧
      db.metadata.totalPlants = db.plants.length ∧
      db.plants.length < tableTwoRows.rows.length := by
  obtain ⟨db, hdb⟩ : ∃ db,
      DataMapper.map_data tableTwoRows imagesOne "ref" "s" "t" = Except.ok db := ⟨_, rfl⟩
  exact ⟨db, hdb, claim_C1 tableTwoRows imagesOne "ref" "s" "t" "ref" db rfl hdb
    ⟨[Cell.str "zz", Cell.num 1, Cell.num 2], by decide, by decide⟩⟩

/-- Claim C2 counterexample: with images `plant_01.jpg`, `Plant-02.PNG`
and references `"plant_01"`, `"PLANT 02"`, the second reference matches
no tier (normalization keeps the hyphen of `Plant-02` but deletes the
space of `PLANT 02`), so only one record is produced, not two. -/
theorem claim_C2_cex :
    DataMapper.find_matching_image (Cell.str "PLANT 02") imagesPlants = none ∧
    (DataMapper.map_data tablePlants imagesPlants "ref_photo" "s" "t").toOption.map
      (fun db => db.plants.length) = some 1 := by
  refine ⟨?_, ?_⟩ <;> decide

/-- Claim C2 (amended): the first reference matches `plant_01.jpg` by the
exact tier; the second matches no image under any tier, so exactly one
record is produced. -/
theorem claim_C2 :
    DataMapper.find_matching_image (Cell.str "plant_01") imagesPlants
      = some "plant_01.jpg" ∧
    DataMapper.normalize_filename "plant_01.jpg"
      = DataMapper.normalize_filename (pyStr (Cell.str "plant_01")) ∧
    DataMapper.find_matching_image (Cell.str "PLANT 02") imagesPlants = none ∧
    (DataMapper.map_data tablePlants imagesPlants "ref_photo" "s" "t").toOption.map
      (fun db => db.plants.map Plant.refPhoto) = some ["plant_01"] := by
  refine ⟨?_, ?_, ?_, ?_⟩ <;> decide

/-- Claim C3 counterexample: a matched row whose `y_proj` cell holds
`"N/A"` produces no record at all — `_safe_float_convert` yields `None`
and pydantic rejects it for the required `yProj` float — instead of a
record with the field absent. -/
theorem claim_C3_cex :
    DataMapper.find_matching_image
        (rowGet tableNA.columns [Cell.str "a", Cell.str "N/A", Cell.num 2] "ref")
        imagesOne = some "a.jpg" ∧
    DataMapper._safe_float_convert (some (Cell.str "N/A")) = none ∧
    (DataMapper.map_data tableNA imagesOne "ref" "s" "t").toOption.map
      (fun db => db.plants.length) = some 0 := by
  refine ⟨?_, ?_, ?_⟩ <;> decide

/-- Claim C3 (amended): a non-numeric string in a numeric cell never
raises — but only `slope` is genuinely optional: a non-numeric slope
yields the record with `slope` absent, while an unconvertible `yProj`
(likewise `xProj`/`altitude`) makes the row be silently skipped,
`map_data` still succeeding. -/
theorem claim_C3 :
    (∀ (columns : List String) (image_data : List (String × ImageInfo))
        (ref_col session_id : String) (index : Nat) (row : List Cell),
        DataMapper._safe_float_convert (DataMapper._get_column_value columns row
          ["y_proj", "Y_Proj", "yProj", "Y", "Latitude"] none) = none →
        DataMapper.processRow columns image_data ref_col session_id index row = none) ∧
    (DataMapper.map_data tableSlopeNA imagesOne "ref" "s" "t").toOption.map
      (fun db => db.plants.map Plant.slope) = some [none] ∧
    (DataMapper.map_data tableNA imagesOne "ref" "s" "t").toOption.map
      (fun db => db.plants.length) = some 0 ∧
    (DataMapper.map_data tableNA imagesOne "ref" "s" "t").toOption.isSome = true := by
  refine ⟨?_, by decide, by decide, by decide⟩
  intro columns image_data ref_col session_id index row hy
  unfold DataMapper.processRow
  cases hf : DataMapper.find_matching_image (rowGet columns row ref_col) image_data with
  | none => simp [hf]
  | some mi =>
    cases hl : List.lookup mi image_data with
    | none => simp [hf, hl]
    | some info => simp [hf, hl, hy]

/-- Claim C3 witness: the generic skip statement at a concrete row. -/
theorem claim_C3_witness :
    DataMapper.processRow tableNA.columns imagesOne "ref" "s" 0
      [Cell.str "a", Cell.str "N/A", Cell.num 2] = none :=
  claim_C3.1 tableNA.columns imagesOne "ref" "s" 0
    [Cell.str "a", Cell.str "N/A", Cell.num 2] (by decide)

/-- Claim C4 witness: the statement at a concrete 3-by-2 sheet. -/
theorem claim_C4_witness :
    ∃ t, ExcelProcessor.process_excel sheetSmall 0 0 = Except.ok t ∧
      t.columns.length = sheetSmall.ncols - 0 ∧
      t.rows.length = sheetSmall.cells.length - 0 - 1 :=
  claim_C4 sheetSmall 0 0 (by decide) (by decide) (by decide)

/-- Claim C5 counterexample: when only the no-data-rows condition fails,
the message does not contain the sheet's actual row bound (here 2). -/
theorem claim_C5_cex :
    ExcelProcessor.process_excel sheetTwoRows 1 0 =
      Except.error "Error processing Excel data: No data rows found after header row 1" ∧
    ¬ hasSub "Error processing Excel data: No data rows found after header row 1"
        (toString sheetTwoRows.cells.length) := by
  constructor
  · rfl
  · intro hsub
    have h2 : '2' ∈ ("Error processing Excel data: " ++
        "No data rows found after header row 1").data := hsub.subset (by decide)
    exact absurd h2 (by decide)

/-- Claim C5 witness: the amended statement at a concrete out-of-range
origin. -/
theorem claim_C5_witness :
    ∃ m, ExcelProcessor.process_excel sheetSmall 5 0 = Except.error m :=
  (claim_C5 sheetSmall 5 0).1.mpr (Or.inl (by decide))

/-- Claim C6 witness: exact resolution at a concrete table. -/
theorem claim_C6_witness :
    DataMapper.resolve_ref_column ["A"] "A" = Except.ok "A" :=
  (claim_C6 ["A"] "A").1 (by decide)

/-- Claim C7 counterexample: a matched row with no exposure column gets
exposure `"Unknown"`, not an `"Unknown Exposure"` sentinel naming the
field. -/
theorem claim_C7_cex :
    (DataMapper.map_data tableDefaults imagesOne "ref" "s" "t").toOption.map
      (fun db => db.plants.map Plant.exposure) = some ["Unknown"] ∧
    ("Unknown" : String) ≠ "Unknown Exposure" := by
  refine ⟨?_, ?_⟩ <;> decide

/-- Claim C7 (amended): absent categorical fields default to
`"Unknown Species"`, `"Unknown Family"`, `"Unknown Formation"` and plain
`"Unknown"` for exposure; an absent slope defaults to absence and an
absent altitude to zero. -/
theorem claim_C7 :
    (DataMapper.map_data tableDefaults imagesOne "ref" "s" "t").toOption.map
      (fun db => db.plants.map (fun p =>
        (p.speciesName, p.family, p.formation, p.exposure, p.slope, p.altitude)))
      = some [("Unknown Species", "Unknown Family", "Unknown Formation",
               "Unknown", none, 0)] := by
  rfl

/-- Claim C8 witness: the statement at the empty listing. -/
theorem claim_C8_witness : ImageProcessor.process_images false none = [] :=
  claim_C8 none

/-- Claim C9 witness: the statement at a concrete match. -/
theorem claim_C9_witness :
    "a.jpg" ∈ imagesOne.map Prod.fst ∧ (List.lookup "a.jpg" imagesOne).isSome :=
  claim_C9 (Cell.str "a") imagesOne "a.jpg" (by decide)

/-- Claim C10 witness: the statement at a concrete run. -/
theorem claim_C10_witness :
    ∃ db, DataMapper.map_data tableDefaults imagesOne "ref" "s" "t" = Except.ok db ∧
      db.metadata.totalPlants = db.plants.length ∧
      List.Sorted (· < ·) db.families := by
  obtain ⟨db, hdb⟩ : ∃ db,
      DataMapper.map_data tableDefaults imagesOne "ref" "s" "t" = Except.ok db := ⟨_, rfl⟩
  have h := claim_C10 tableDefaults imagesOne "ref" "s" "t" db hdb
  exact ⟨db, hdb, h.1, h.2.2.1⟩
